import Mathlib

/-!
Shallow embedding of the two Go microservices of `otelgoexpert`:
the Gateway (`servico-a/cmd/server/main.go`) and the Resolver
(`servico-b/cmd/server/main.go`).  Pure functions are translated
directly; each HTTP handler becomes a function from its request data and
the (abstracted) results of its outbound calls to the response it writes
plus the list of outbound calls it issued.  Go `float64` temperature
values are modelled as exact rationals; Go strings as Lean strings
(every property below is insensitive to the byte/rune distinction, since
a string whose rune view differs from its byte view contains a non-ASCII
and hence non-digit character, on which both views agree that the
validator rejects).  Tracing spans and logging are effect-free for every
property considered and are omitted.
-/

namespace OtelGoExpert

/-- Outcome of `json.Unmarshal` (together with the preceding
`io.ReadAll`) applied to an upstream response body: either the decoded
value or a failure message. -/
inductive DecodeResult (α : Type) where
  | ok (value : α)
  | fail (msg : String)
deriving Repr

/-- Result of one outbound HTTP GET/POST as seen by the caller: either a
transport-level error (the request never produced a response), or a
response with a status code, the raw body bytes, and the outcome of
decoding that body into `α`. -/
inductive UpstreamResult (α : Type) where
  | transportError (msg : String)
  | response (status : Nat) (rawBody : String) (decoded : DecodeResult α)
deriving Repr

/-- JSON values, used to model `encoding/json` marshalling of the
result structs.  Object fields are kept in encoding order. -/
inductive JSON where
  | str (s : String)
  | num (q : ℚ)
  | bool (b : Bool)
  | obj (fields : List (String × JSON))

/-- A response body as written by a handler: `http.Error` writes plain
text, `w.Write` writes raw bytes through unchanged, and
`json.NewEncoder(w).Encode` writes a JSON value. -/
inductive HTTPBody where
  | plainText (msg : String)
  | raw (bytes : String)
  | json (v : JSON)

/-- The status code and body a handler writes for one request. -/
structure WrittenResponse where
  status : Nat
  body : HTTPBody

/-- Body written by `json.NewEncoder(w).Encode(map[string]string\x7b"error": msg\x7d)`:
a one-field JSON object with key `error`. -/
def errorJSON (msg : String) : HTTPBody :=
  .json (.obj [("error", .str msg)])

namespace ServicoA

/-- Gateway request body shape (`CEPRequest`, main.go lines 26-28). -/
structure CEPRequest where
  cep : String
deriving Repr, DecidableEq

/-- Gateway result shape (`CEPResponse`, main.go lines 30-35), with the
same four JSON fields `city`, `temp_C`, `temp_F`, `temp_K` as the
Resolver's `TemperatureResponse`. -/
structure CEPResponse where
  City : String
  TempC : ℚ
  TempF : ℚ
  TempK : ℚ
deriving Repr, DecidableEq

/-- `validateCEP` of servico-a (main.go lines 94-104): length must be
exactly 8 and every character must lie in the range given by the char
comparisons `char < '0' || char > '9'`. -/
def validateCEP (cep : String) : Bool :=
  if cep.length ≠ 8 then false
  else cep.data.all (fun char => if char < '0' ∨ char > '9' then false else true)

/-- Outcome of `json.NewDecoder(r.Body).Decode(&req)` on the inbound
request body. -/
inductive BodyParse where
  | malformed
  | parsed (req : CEPRequest)
deriving Repr, DecidableEq

/-- Result of the Gateway's single outbound call to the Resolver, as the
Gateway observes it: `http.NewRequestWithContext` may fail before any
request is sent; otherwise `client.Do` may fail at transport level;
otherwise `io.ReadAll` may fail; otherwise a status plus raw body bytes
plus the outcome of `json.Unmarshal` of those bytes arrive. -/
inductive ResolverCallResult where
  | newRequestError (msg : String)
  | transportError (msg : String)
  | readError (msg : String)
  | response (status : Nat) (rawBody : String) (decoded : DecodeResult CEPResponse)

/-- An outbound request actually sent by the Gateway. -/
inductive GatewayCall where
  | resolver (cep : String)
deriving Repr, DecidableEq

/-- `json.Marshal` of `CEPResponse` (struct field order, tags `city`,
`temp_C`, `temp_F`, `temp_K`). -/
def encodeCEPResponse (r : CEPResponse) : JSON :=
  .obj [("city", .str r.City), ("temp_C", .num r.TempC),
        ("temp_F", .num r.TempF), ("temp_K", .num r.TempK)]

/-- Last-match field lookup, as `encoding/json` keeps the last of
duplicate keys when unmarshalling. -/
def lookupLast (fields : List (String × JSON)) (key : String) : Option JSON :=
  match fields with
  | [] => none
  | (k, v) :: rest =>
    match lookupLast rest key with
    | some w => some w
    | none => if k = key then some v else none

/-- Extraction of a string struct field by `json.Unmarshal`: an absent
key leaves the zero value `""`; a present key must hold a JSON string,
anything else is a decode error. -/
def getStrField (fields : List (String × JSON)) (key : String) : Option String :=
  match lookupLast fields key with
  | none => some ""
  | some (.str s) => some s
  | some _ => none

/-- Extraction of a float64 struct field by `json.Unmarshal`: an absent
key leaves the zero value `0`; a present key must hold a JSON number. -/
def getNumField (fields : List (String × JSON)) (key : String) : Option ℚ :=
  match lookupLast fields key with
  | none => some 0
  | some (.num q) => some q
  | some _ => none

/-- `json.Unmarshal` of a JSON value into `CEPResponse` (main.go lines
175-180): the value must be an object, and each of the four tagged
fields is extracted as above.  Exact-key match is modelled; Go's
case-insensitive fallback never fires on the bodies the Resolver
produces, whose keys match the tags exactly. -/
def decodeCEPResponse (j : JSON) : Option CEPResponse :=
  match j with
  | .obj fields => do
    let city ← getStrField fields "city"
    let tempC ← getNumField fields "temp_C"
    let tempF ← getNumField fields "temp_F"
    let tempK ← getNumField fields "temp_K"
    some ⟨city, tempC, tempF, tempK⟩
  | _ => none

/-- `handleCEP` (main.go lines 106-185): parse the body (malformed →
400 plain text), validate the CEP (invalid → 422 with the error JSON,
no outbound request), then call the Resolver; transport/read failures →
500; a non-200 response is relayed with its status and raw body bytes
unchanged; a 200 response is unmarshalled (failure → 500) and
re-encoded as the Gateway's own 200 JSON response. -/
def handleCEP (body : BodyParse) (resolverResult : ResolverCallResult) :
    WrittenResponse × List GatewayCall :=
  match body with
  | .malformed => (⟨400, .plainText "invalid request body"⟩, [])
  | .parsed req =>
    if !validateCEP req.cep then
      (⟨422, errorJSON "invalid zipcode"⟩, [])
    else
      match resolverResult with
      | .newRequestError msg => (⟨500, .plainText msg⟩, [])
      | .transportError msg => (⟨500, .plainText msg⟩, [.resolver req.cep])
      | .readError msg => (⟨500, .plainText msg⟩, [.resolver req.cep])
      | .response status rawBody decoded =>
        if status ≠ 200 then
          (⟨status, .raw rawBody⟩, [.resolver req.cep])
        else
          match decoded with
          | .fail msg =>
            (⟨500, .plainText ("failed to decode response: " ++ msg)⟩, [.resolver req.cep])
          | .ok cepResp =>
            (⟨200, .json (encodeCEPResponse cepResp)⟩, [.resolver req.cep])

end ServicoA

namespace ServicoB

/-- Directory-API payload (`ViaCEPResponse`, servico-b main.go lines
27-35). -/
structure ViaCEPResponse where
  Cep : String
  Logradouro : String
  Complemento : String
  Bairro : String
  Localidade : String
  UF : String
  Erro : Bool
deriving Repr, DecidableEq

/-- Weather-API payload, `location` part. -/
structure WeatherLocation where
  Name : String
deriving Repr, DecidableEq

/-- Weather-API payload, `current` part. -/
structure WeatherCurrent where
  TempC : ℚ
deriving Repr, DecidableEq

/-- Weather-API payload (`WeatherAPIResponse`, servico-b main.go lines
37-44). -/
structure WeatherAPIResponse where
  Location : WeatherLocation
  Current : WeatherCurrent
deriving Repr, DecidableEq

/-- Resolver result shape (`TemperatureResponse`, servico-b main.go
lines 46-51). -/
structure TemperatureResponse where
  City : String
  TempC : ℚ
  TempF : ℚ
  TempK : ℚ
deriving Repr, DecidableEq

/-- `validateCEP` of servico-b (servico-b main.go lines 110-120),
textually identical to the Gateway's. -/
def validateCEP (cep : String) : Bool :=
  if cep.length ≠ 8 then false
  else cep.data.all (fun char => if char < '0' ∨ char > '9' then false else true)

/-- `celsiusToFahrenheit` (servico-b main.go lines 122-124).  The Go
literal `1.8` is taken at its exact decimal value. -/
def celsiusToFahrenheit (c : ℚ) : ℚ :=
  c * 1.8 + 32

/-- `celsiusToKelvin` (servico-b main.go lines 126-128): the constant is
`273`, not `273.15`. -/
def celsiusToKelvin (c : ℚ) : ℚ :=
  c + 273

/-- The `error` values `searchCEP` and `getTemperature` can return,
together with the message `Error()` yields for each; the handler
discriminates on that message text. -/
inductive ServiceError where
  | transport (msg : String)
  | invalidZipcode
  | canNotFind
  | bodyFailure (msg : String)
  | weatherKeyMissing
  | weatherStatus (status : Nat) (body : String)
deriving Repr, DecidableEq

/-- `Error()` of each `ServiceError`. -/
def ServiceError.message : ServiceError → String
  | .transport msg => msg
  | .invalidZipcode => "invalid zipcode"
  | .canNotFind => "can not find zipcode"
  | .bodyFailure msg => msg
  | .weatherKeyMissing => "WEATHER_API_KEY not set"
  | .weatherStatus st body => "weather API returned status " ++ toString st ++ ": " ++ body

/-- An outbound request actually sent by the Resolver. -/
inductive ExtCall where
  | directory (cep : String)
  | weather (city : String)
deriving Repr, DecidableEq

/-- `searchCEP` (servico-b main.go lines 130-177): one GET to the
directory API.  A transport error is returned as-is; a 400 status
becomes the error `invalid zipcode` before the body is read; a
read/decode failure is returned as-is; a decoded payload with `Erro`
set becomes the error `can not find zipcode`; otherwise the payload is
returned.  The GET itself is issued in every branch. -/
def searchCEP (cep : String) (upstream : UpstreamResult ViaCEPResponse) :
    Except ServiceError ViaCEPResponse × List ExtCall :=
  match upstream with
  | .transportError msg => (.error (.transport msg), [.directory cep])
  | .response status _rawBody decoded =>
    if status = 400 then (.error .invalidZipcode, [.directory cep])
    else
      match decoded with
      | .fail msg => (.error (.bodyFailure msg), [.directory cep])
      | .ok viaCEPResp =>
        if viaCEPResp.Erro then (.error .canNotFind, [.directory cep])
        else (.ok viaCEPResp, [.directory cep])

/-- `getTemperature` (servico-b main.go lines 179-231): if
`WEATHER_API_KEY` is empty (Go `os.Getenv` yields `""` when the
variable is absent) it fails before issuing any HTTP request; otherwise
one GET to the weather API: transport error returned as-is, non-200
status becomes an error carrying the status and raw body, decode
failure returned as-is, otherwise the Celsius reading is returned. -/
def getTemperature (city : String) (weatherAPIKey : String)
    (upstream : UpstreamResult WeatherAPIResponse) :
    Except ServiceError ℚ × List ExtCall :=
  if weatherAPIKey = "" then (.error .weatherKeyMissing, [])
  else
    match upstream with
    | .transportError msg => (.error (.transport msg), [.weather city])
    | .response status rawBody decoded =>
      if status ≠ 200 then (.error (.weatherStatus status rawBody), [.weather city])
      else
        match decoded with
        | .fail msg => (.error (.bodyFailure msg), [.weather city])
        | .ok weatherResp => (.ok weatherResp.Current.TempC, [.weather city])

/-- `json.Marshal` of `TemperatureResponse` (struct field order, tags
`city`, `temp_C`, `temp_F`, `temp_K`). -/
def encodeTemperatureResponse (t : TemperatureResponse) : JSON :=
  .obj [("city", .str t.City), ("temp_C", .num t.TempC),
        ("temp_F", .num t.TempF), ("temp_K", .num t.TempK)]

/-- Everything outside the Resolver that one request can observe: the
directory-API result, the weather-API key from the environment, and the
weather-API result. -/
structure ResolverWorld where
  directoryResult : UpstreamResult ViaCEPResponse
  weatherAPIKey : String
  weatherResult : UpstreamResult WeatherAPIResponse

/-- `handleTemperature` (servico-b main.go lines 233-298): an empty
`X-CEP` header → 400 with the header-required error JSON; an invalid
CEP → 422; then `searchCEP`, whose error is mapped by its message text
(`invalid zipcode` → 422, `can not find zipcode` → 404, anything else →
500 plain text); then `getTemperature` (error → 500 plain text); on
success the conversions are applied and the 200 JSON body written. -/
def handleTemperature (cep : String) (world : ResolverWorld) :
    WrittenResponse × List ExtCall :=
  if cep = "" then
    (⟨400, errorJSON "CEP header is required"⟩, [])
  else if !validateCEP cep then
    (⟨422, errorJSON "invalid zipcode"⟩, [])
  else
    match searchCEP cep world.directoryResult with
    | (.error e, calls) =>
      if e.message = "invalid zipcode" then
        (⟨422, errorJSON "invalid zipcode"⟩, calls)
      else if e.message = "can not find zipcode" then
        (⟨404, errorJSON "can not find zipcode"⟩, calls)
      else
        (⟨500, .plainText e.message⟩, calls)
    | (.ok viaCEPResp, calls) =>
      match getTemperature viaCEPResp.Localidade world.weatherAPIKey world.weatherResult with
      | (.error e, moreCalls) => (⟨500, .plainText e.message⟩, calls ++ moreCalls)
      | (.ok tempC, moreCalls) =>
        (⟨200, .json (encodeTemperatureResponse
            ⟨viaCEPResp.Localidade, tempC, celsiusToFahrenheit tempC, celsiusToKelvin tempC⟩)⟩,
         calls ++ moreCalls)

end ServicoB

/-- `maxRetries` of `initProvider` (both services, line 51 resp. 67). -/
def maxRetries : Nat := 20

/-- `retryDelay` of `initProvider`, in seconds. -/
def retryDelaySeconds : Nat := 2

/-- Per-attempt `context.WithTimeout` bound of `initProvider`, in
seconds. -/
def dialTimeoutSeconds : Nat := 5

/-- Observable outcome of the `initProvider` connection loop: whether a
connection was obtained, how many dial attempts were made, and how many
seconds the loop blocked startup (dial time plus sleeps). -/
structure ConnectResult where
  success : Bool
  attempts : Nat
  blockedSeconds : Nat
deriving Repr, DecidableEq

/-- The `for i := 0; i < maxRetries; i++` connection loop of
`initProvider` (identical in both services, servico-a main.go lines
49-74).  `dialOK i` tells whether attempt `i` succeeds and
`dialSeconds i` how long it takes; the `WithTimeout` context caps each
attempt at `dialTimeoutSeconds`.  On failure the loop sleeps
`retryDelaySeconds` only when further attempts remain; on the last
failed attempt it returns the error immediately. -/
def connectLoop (dialOK : Nat → Bool) (dialSeconds : Nat → Nat) :
    Nat → Nat → ConnectResult
  | _, 0 => ⟨false, 0, 0⟩
  | i, remaining + 1 =>
    let spent := min (dialSeconds i) dialTimeoutSeconds
    if dialOK i then ⟨true, 1, spent⟩
    else if remaining = 0 then ⟨false, 1, spent⟩
    else
      let rest := connectLoop dialOK dialSeconds (i + 1) remaining
      ⟨rest.success, rest.attempts + 1, spent + retryDelaySeconds + rest.blockedSeconds⟩

/-- The whole retry phase of `initProvider`: the loop started at attempt
0 with `maxRetries` attempts available. -/
def initProviderConnect (dialOK : Nat → Bool) (dialSeconds : Nat → Nat) : ConnectResult :=
  connectLoop dialOK dialSeconds 0 maxRetries

/-- C1: the validator (in both services) returns true exactly on strings
of length 8 all of whose characters are decimal digits; in particular
it returns false whenever the length differs from 8 or some character is
not a digit, with no trimming or normalization. -/
theorem C1_validateCEP_characterization (s : String) :
    (ServicoA.validateCEP s = true ↔ s.length = 8 ∧ ∀ c ∈ s.data, '0' ≤ c ∧ c ≤ '9') ∧
    (ServicoB.validateCEP s = true ↔ s.length = 8 ∧ ∀ c ∈ s.data, '0' ≤ c ∧ c ≤ '9') ∧
    (s.length ≠ 8 → ServicoA.validateCEP s = false ∧ ServicoB.validateCEP s = false) ∧
    (∀ c ∈ s.data, ¬('0' ≤ c ∧ c ≤ '9') →
      ServicoA.validateCEP s = false ∧ ServicoB.validateCEP s = false) := by
  have hBA : ∀ t : String, ServicoB.validateCEP t = ServicoA.validateCEP t := fun _ => rfl
  have hA : ServicoA.validateCEP s = true ↔ s.length = 8 ∧ ∀ c ∈ s.data, '0' ≤ c ∧ c ≤ '9' := by
    unfold ServicoA.validateCEP
    by_cases hl : s.length = 8 <;> simp [hl]
  refine ⟨hA, by rw [hBA]; exact hA, ?_, ?_⟩
  · intro hl
    have : ServicoA.validateCEP s = false :=
      Bool.eq_false_iff.mpr fun ht => hl (hA.mp ht).1
    exact ⟨this, by rw [hBA]; exact this⟩
  · intro c hc hnd
    have : ServicoA.validateCEP s = false :=
      Bool.eq_false_iff.mpr fun ht => hnd ((hA.mp ht).2 c hc)
    exact ⟨this, by rw [hBA]; exact this⟩

/-- C2: over the exact-rational reading of the Go float64 arithmetic,
`celsiusToFahrenheit c` is exactly `c * 9/5 + 32` (the literal `1.8`
taken at its decimal value) and `celsiusToKelvin c` is exactly
`c + 273`, which differs from `c + 273.15`; on the README example,
28.5 Celsius gives 83.3 Fahrenheit and 301.5 Kelvin. -/
theorem C2_conversion_exact (c : ℚ) :
    ServicoB.celsiusToFahrenheit c = c * (9 / 5) + 32 ∧
    ServicoB.celsiusToKelvin c = c + 273 ∧
    ServicoB.celsiusToKelvin c ≠ c + 273.15 ∧
    ServicoB.celsiusToFahrenheit 28.5 = 83.3 ∧
    ServicoB.celsiusToKelvin 28.5 = 301.5 := by
  unfold ServicoB.celsiusToFahrenheit ServicoB.celsiusToKelvin
  norm_num

/-- C4: when the Gateway body parses but the `cep` field fails
validation, the Gateway answers 422 with the `invalid zipcode` error
JSON and issues no outbound request to the Resolver, whatever the
Resolver side would have answered. -/
theorem C4_gateway_invalid_cep (req : ServicoA.CEPRequest)
    (resolverResult : ServicoA.ResolverCallResult)
    (hv : ServicoA.validateCEP req.cep = false) :
    ServicoA.handleCEP (.parsed req) resolverResult
      = (⟨422, errorJSON "invalid zipcode"⟩, []) := by
  unfold ServicoA.handleCEP
  simp [hv]

/-- C4 witness: the spec scenario `cep = "123"` at a concrete resolver
outcome. -/
theorem C4_gateway_invalid_cep_witness :
    ServicoA.handleCEP (.parsed ⟨"123"⟩) (.transportError "dial tcp: refused")
      = (⟨422, errorJSON "invalid zipcode"⟩, []) :=
  C4_gateway_invalid_cep ⟨"123"⟩ (.transportError "dial tcp: refused") (by decide)

/-- C5: whenever the Resolver answers with a status other than 200, the
Gateway relays exactly that status and the raw body bytes unchanged,
regardless of whether those bytes would decode. -/
theorem C5_gateway_relays_non_200 (req : ServicoA.CEPRequest) (status : Nat)
    (rawBody : String) (decoded : DecodeResult ServicoA.CEPResponse)
    (hv : ServicoA.validateCEP req.cep = true) (hst : status ≠ 200) :
    ServicoA.handleCEP (.parsed req) (.response status rawBody decoded)
      = (⟨status, .raw rawBody⟩, [.resolver req.cep]) := by
  unfold ServicoA.handleCEP
  simp [hv, hst]

/-- C5 witness: a 404 from the Resolver is relayed with its body bytes
untouched. -/
theorem C5_gateway_relays_non_200_witness :
    ServicoA.handleCEP (.parsed ⟨"99999999"⟩) (.response 404 "errbody" (.fail "not a CEPResponse"))
      = (⟨404, .raw "errbody"⟩, [.resolver "99999999"]) :=
  C5_gateway_relays_non_200 ⟨"99999999"⟩ 404 "errbody" (.fail "not a CEPResponse")
    (by decide) (by decide)

/-- C7: a request to the Resolver with an empty `X-CEP` header is
answered 400 with the header-required error JSON before any validation
or lookup (no outbound call); a non-empty header failing the Resolver's
own validator is answered 422 with the `invalid zipcode` error JSON
before any external lookup (no outbound call). -/
theorem C7_resolver_header_validation (cep : String)
    (w w0 : ServicoB.ResolverWorld)
    (hne : cep ≠ "") (hv : ServicoB.validateCEP cep = false) :
    ServicoB.handleTemperature "" w0 = (⟨400, errorJSON "CEP header is required"⟩, []) ∧
    ServicoB.handleTemperature cep w = (⟨422, errorJSON "invalid zipcode"⟩, []) := by
  constructor
  · rfl
  · unfold ServicoB.handleTemperature
    simp [hne, hv]

/-- C7 witness: header value `123` at a concrete world. -/
theorem C7_resolver_header_validation_witness :
    ServicoB.handleTemperature "" ⟨.transportError "t", "", .transportError "u"⟩
        = (⟨400, errorJSON "CEP header is required"⟩, []) ∧
    ServicoB.handleTemperature "123" ⟨.transportError "t", "", .transportError "u"⟩
        = (⟨422, errorJSON "invalid zipcode"⟩, []) :=
  C7_resolver_header_validation "123" ⟨.transportError "t", "", .transportError "u"⟩
    ⟨.transportError "t", "", .transportError "u"⟩ (by decide) (by decide)

/-- C3: once a non-empty valid CEP reaches `searchCEP`, a directory-API
response with status 400 yields 422 with the `invalid zipcode` error
JSON; a decoded directory payload with `Erro` set yields 404 with the
`can not find zipcode` error JSON and no weather-API call is attempted;
any transport or decode failure of `searchCEP` (whose message text, as
in the real program, is neither of the two sentinel messages the
handler matches on) yields 500. -/
theorem C3_resolver_directory_errors (cep : String) (w : ServicoB.ResolverWorld)
    (hne : cep ≠ "") (hv : ServicoB.validateCEP cep = true) :
    (∀ rawBody decoded, w.directoryResult = .response 400 rawBody decoded →
      ServicoB.handleTemperature cep w
        = (⟨422, errorJSON "invalid zipcode"⟩, [.directory cep])) ∧
    (∀ status rawBody v, w.directoryResult = .response status rawBody (.ok v) →
      status ≠ 400 → v.Erro = true →
      ServicoB.handleTemperature cep w
          = (⟨404, errorJSON "can not find zipcode"⟩, [.directory cep]) ∧
        ∀ city, ServicoB.ExtCall.weather city ∉ (ServicoB.handleTemperature cep w).2) ∧
    (∀ msg, w.directoryResult = .transportError msg →
      msg ≠ "invalid zipcode" → msg ≠ "can not find zipcode" →
      (ServicoB.handleTemperature cep w).1.status = 500) ∧
    (∀ status rawBody msg, w.directoryResult = .response status rawBody (.fail msg) →
      status ≠ 400 → msg ≠ "invalid zipcode" → msg ≠ "can not find zipcode" →
      (ServicoB.handleTemperature cep w).1.status = 500) := by
  refine ⟨?_, ?_, ?_, ?_⟩
  · intro rawBody decoded hdir
    unfold ServicoB.handleTemperature
    rw [hdir]
    simp [hne, hv, ServicoB.searchCEP, ServicoB.ServiceError.message]
  · intro status rawBody v hdir hst herr
    unfold ServicoB.handleTemperature
    rw [hdir]
    simp [hne, hv, ServicoB.searchCEP, hst, herr, ServicoB.ServiceError.message]
  · intro msg hdir hm1 hm2
    unfold ServicoB.handleTemperature
    rw [hdir]
    simp [hne, hv, ServicoB.searchCEP, ServicoB.ServiceError.message, hm1, hm2]
  · intro status rawBody msg hdir hst hm1 hm2
    unfold ServicoB.handleTemperature
    rw [hdir]
    simp [hne, hv, ServicoB.searchCEP, hst, ServicoB.ServiceError.message, hm1, hm2]

/-- C3 witness: the three scenarios at the concrete CEP `01310100` —
upstream status 400, an `Erro` payload, and a transport failure. -/
theorem C3_resolver_directory_errors_witness :
    ServicoB.handleTemperature "01310100"
        ⟨.response 400 "" (.fail "ignored"), "key", .transportError "x"⟩
      = (⟨422, errorJSON "invalid zipcode"⟩, [.directory "01310100"]) ∧
    ServicoB.handleTemperature "01310100"
        ⟨.response 200 "" (.ok ⟨"", "", "", "", "", "", true⟩), "key", .transportError "x"⟩
      = (⟨404, errorJSON "can not find zipcode"⟩, [.directory "01310100"]) ∧
    (ServicoB.handleTemperature "01310100"
        ⟨.transportError "dial tcp: refused", "key", .transportError "x"⟩).1.status = 500 := by
  refine ⟨?_, ?_, ?_⟩
  · exact (C3_resolver_directory_errors "01310100"
      ⟨.response 400 "" (.fail "ignored"), "key", .transportError "x"⟩
      (by decide) (by decide)).1 "" (.fail "ignored") rfl
  · exact ((C3_resolver_directory_errors "01310100"
      ⟨.response 200 "" (.ok ⟨"", "", "", "", "", "", true⟩), "key", .transportError "x"⟩
      (by decide) (by decide)).2.1 200 "" ⟨"", "", "", "", "", "", true⟩ rfl
      (by decide) rfl).1
  · exact (C3_resolver_directory_errors "01310100"
      ⟨.transportError "dial tcp: refused", "key", .transportError "x"⟩
      (by decide) (by decide)).2.2.1 "dial tcp: refused" rfl (by decide) (by decide)

/-- C6: when `WEATHER_API_KEY` is absent (empty, as `os.Getenv` yields
for an unset variable), any request that passes validation and whose
directory lookup succeeds is answered 500 with the key-missing message,
and no weather-API call is issued; indeed `getTemperature` with an
empty key fails with the key-missing error and an empty call list for
every city and every weather-API behaviour. -/
theorem C6_weather_key_missing (cep : String) (w : ServicoB.ResolverWorld)
    (hne : cep ≠ "") (hv : ServicoB.validateCEP cep = true)
    (status : Nat) (rawBody : String) (v : ServicoB.ViaCEPResponse)
    (hdir : w.directoryResult = .response status rawBody (.ok v))
    (hst : status ≠ 400) (herr : v.Erro = false)
    (hkey : w.weatherAPIKey = "") :
    ServicoB.handleTemperature cep w
        = (⟨500, .plainText "WEATHER_API_KEY not set"⟩, [.directory cep]) ∧
    (∀ city, ServicoB.ExtCall.weather city ∉ (ServicoB.handleTemperature cep w).2) ∧
    ∀ city upstream, ServicoB.getTemperature city "" upstream
        = (.error .weatherKeyMissing, []) := by
  have hmain : ServicoB.handleTemperature cep w
      = (⟨500, .plainText "WEATHER_API_KEY not set"⟩, [.directory cep]) := by
    unfold ServicoB.handleTemperature
    rw [hdir]
    simp [hne, hv, ServicoB.searchCEP, hst, herr, hkey, ServicoB.getTemperature,
      ServicoB.ServiceError.message]
  refine ⟨hmain, ?_, ?_⟩
  · intro city
    rw [hmain]
    simp
  · intro city upstream
    simp [ServicoB.getTemperature]

/-- C6 witness: concrete valid CEP, successful directory lookup, empty
key. -/
theorem C6_weather_key_missing_witness :
    ServicoB.handleTemperature "01310100"
        ⟨.response 200 "" (.ok ⟨"", "", "", "", "Sao Paulo", "SP", false⟩), "",
         .response 200 "" (.ok ⟨⟨"Sao Paulo"⟩, ⟨28.5⟩⟩)⟩
      = (⟨500, .plainText "WEATHER_API_KEY not set"⟩, [.directory "01310100"]) :=
  (C6_weather_key_missing "01310100"
    ⟨.response 200 "" (.ok ⟨"", "", "", "", "Sao Paulo", "SP", false⟩), "",
     .response 200 "" (.ok ⟨⟨"Sao Paulo"⟩, ⟨28.5⟩⟩)⟩
    (by decide) (by decide) 200 "" ⟨"", "", "", "", "Sao Paulo", "SP", false⟩
    rfl (by decide) rfl rfl).1

/-- C8: decoding a Resolver 200 body into the Gateway's four-field
result shape succeeds and recovers exactly the four field values, and
re-encoding the decoded value reproduces the original body
field-for-field (same keys, same order, same values). -/
theorem C8_gateway_roundtrip (t : ServicoB.TemperatureResponse) :
    ServicoA.decodeCEPResponse (ServicoB.encodeTemperatureResponse t)
        = some ⟨t.City, t.TempC, t.TempF, t.TempK⟩ ∧
    (ServicoA.decodeCEPResponse (ServicoB.encodeTemperatureResponse t)).map
        ServicoA.encodeCEPResponse
      = some (ServicoB.encodeTemperatureResponse t) := by
  constructor <;> rfl

/-- Helper: `searchCEP` issues exactly one directory-API call in every
branch. -/
theorem searchCEP_calls (cep : String) (upstream : UpstreamResult ServicoB.ViaCEPResponse) :
    (ServicoB.searchCEP cep upstream).2 = [ServicoB.ExtCall.directory cep] := by
  unfold ServicoB.searchCEP
  cases upstream with
  | transportError msg => rfl
  | response status rawBody decoded =>
    by_cases hst : status = 400
    · simp [hst]
    · cases decoded with
      | fail msg => simp [hst]
      | ok v =>
        by_cases herr : v.Erro <;> simp [hst, herr]

/-- C10: the Gateway's validator and the Resolver's validator agree on
every input; hence a CEP that passed Gateway validation also passes the
Resolver's re-validation, so the Resolver's own 422 validation branch
is never taken and the handler always proceeds to the directory
lookup. -/
theorem C10_validators_agree (cep : String) (w : ServicoB.ResolverWorld)
    (h : ServicoA.validateCEP cep = true) :
    ServicoB.validateCEP cep = true ∧
    ServicoB.ExtCall.directory cep ∈ (ServicoB.handleTemperature cep w).2 ∧
    ∀ s, ServicoA.validateCEP s = ServicoB.validateCEP s := by
  have hB : ServicoB.validateCEP cep = true := h
  have hne : cep ≠ "" := by
    intro he
    rw [he] at h
    exact absurd h (by decide)
  refine ⟨hB, ?_, fun s => rfl⟩
  have hcalls := searchCEP_calls cep w.directoryResult
  unfold ServicoB.handleTemperature
  rcases hsc : ServicoB.searchCEP cep w.directoryResult with ⟨res, calls⟩
  rw [hsc] at hcalls
  simp only at hcalls
  cases res with
  | error e =>
    simp only [hne, hB, hsc, if_neg, Bool.not_true, Bool.false_eq_true, if_false]
    subst hcalls
    split_ifs <;> simp
  | ok v =>
    simp only [hne, hB, hsc]
    subst hcalls
    rcases ServicoB.getTemperature v.Localidade w.weatherAPIKey w.weatherResult with
      ⟨tres, moreCalls⟩
    cases tres <;> simp [hne]

/-- C10 witness: the concrete CEP `01310100` against a failing
directory API. -/
theorem C10_validators_agree_witness :
    ServicoB.validateCEP "01310100" = true ∧
    ServicoB.ExtCall.directory "01310100" ∈
      (ServicoB.handleTemperature "01310100"
        ⟨.transportError "dial tcp: refused", "", .transportError "x"⟩).2 ∧
    ∀ s, ServicoA.validateCEP s = ServicoB.validateCEP s :=
  C10_validators_agree "01310100"
    ⟨.transportError "dial tcp: refused", "", .transportError "x"⟩ (by decide)

/-- Helper: the loop never makes more attempts than it has remaining. -/
theorem connectLoop_attempts_le (dialOK : Nat → Bool) (dialSeconds : Nat → Nat) :
    ∀ remaining i, (connectLoop dialOK dialSeconds i remaining).attempts ≤ remaining := by
  intro remaining
  induction remaining with
  | zero => intro i; simp [connectLoop]
  | succ n ih =>
    intro i
    unfold connectLoop
    by_cases h : dialOK i = true
    · simp [h]
    · by_cases hn : n = 0
      · simp [h, hn]
      · have := ih (i + 1)
        simp only [h, hn, connectLoop] at this ⊢
        simp [h, hn]
        omega

/-- Helper: each attempt blocks at most 5 seconds of dial time plus a
2-second sleep, except the last, which does not sleep. -/
theorem connectLoop_blocked_le (dialOK : Nat → Bool) (dialSeconds : Nat → Nat) :
    ∀ remaining i,
      (connectLoop dialOK dialSeconds i remaining).blockedSeconds ≤ 7 * remaining - 2 := by
  intro remaining
  induction remaining with
  | zero => intro i; simp [connectLoop]
  | succ n ih =>
    intro i
    unfold connectLoop
    by_cases h : dialOK i = true
    · simp [h, dialTimeoutSeconds]
      omega
    · by_cases hn : n = 0
      · simp [h, hn, dialTimeoutSeconds]
      · have := ih (i + 1)
        simp [h, hn, dialTimeoutSeconds, retryDelaySeconds]
        omega

/-- Helper: if the loop reports failure, every attempt in its window
failed. -/
theorem connectLoop_success_false (dialOK : Nat → Bool) (dialSeconds : Nat → Nat) :
    ∀ remaining i, (connectLoop dialOK dialSeconds i remaining).success = false →
      ∀ j, i ≤ j → j < i + remaining → dialOK j = false := by
  intro remaining
  induction remaining with
  | zero => intro i _ j h1 h2; omega
  | succ n ih =>
    intro i hs j h1 h2
    cases hdo : dialOK i with
    | true =>
      unfold connectLoop at hs
      simp [hdo] at hs
    | false =>
      rcases Nat.lt_or_ge j (i + 1) with hj | hj
      · have : j = i := by omega
        rw [this, hdo]
      · by_cases hn : n = 0
        · omega
        · unfold connectLoop at hs
          simp [hdo, hn] at hs
          exact ih (i + 1) hs j hj (by omega)

/-- Helper: if the loop reports success, some attempt in its window
succeeded. -/
theorem connectLoop_success_true (dialOK : Nat → Bool) (dialSeconds : Nat → Nat) :
    ∀ remaining i, (connectLoop dialOK dialSeconds i remaining).success = true →
      ∃ j, i ≤ j ∧ j < i + remaining ∧ dialOK j = true := by
  intro remaining
  induction remaining with
  | zero => intro i hs; simp [connectLoop] at hs
  | succ n ih =>
    intro i hs
    cases hdo : dialOK i with
    | true => exact ⟨i, le_rfl, by omega, hdo⟩
    | false =>
      by_cases hn : n = 0
      · unfold connectLoop at hs
        simp [hdo, hn] at hs
      · unfold connectLoop at hs
        simp [hdo, hn] at hs
        obtain ⟨j, hj1, hj2, hj3⟩ := ih (i + 1) hs
        exact ⟨j, by omega, by omega, hj3⟩

/-- Helper: on failure the loop has used every remaining attempt. -/
theorem connectLoop_attempts_of_failure (dialOK : Nat → Bool) (dialSeconds : Nat → Nat) :
    ∀ remaining i, (connectLoop dialOK dialSeconds i remaining).success = false →
      (connectLoop dialOK dialSeconds i remaining).attempts = remaining := by
  intro remaining
  induction remaining with
  | zero => intro i _; simp [connectLoop]
  | succ n ih =>
    intro i hs
    cases hdo : dialOK i with
    | true =>
      unfold connectLoop at hs
      simp [hdo] at hs
    | false =>
      by_cases hn : n = 0
      · unfold connectLoop
        simp [hdo, hn]
      · unfold connectLoop at hs ⊢
        simp [hdo, hn] at hs ⊢
        exact ih (i + 1) hs

/-- Helper: the exact blocking time of an all-fail run: the capped dial
time of each of the `n + 1` attempts plus a 2-second sleep after each
attempt but the last. -/
theorem connectLoop_all_fail (dialOK : Nat → Bool) (dialSeconds : Nat → Nat) :
    ∀ n i, (∀ j, i ≤ j → j < i + (n + 1) → dialOK j = false) →
      connectLoop dialOK dialSeconds i (n + 1)
        = ⟨false, n + 1,
            ((Finset.Ico i (i + (n + 1))).sum fun j => min (dialSeconds j) 5) + 2 * n⟩ := by
  intro n
  induction n with
  | zero =>
    intro i h
    have h0 : dialOK i = false := h i le_rfl (by omega)
    unfold connectLoop
    rw [Finset.sum_Ico_succ_top le_rfl]
    simp [h0, dialTimeoutSeconds]
  | succ m ih =>
    intro i h
    have h0 : dialOK i = false := h i le_rfl (by omega)
    have hrest := ih (i + 1) (fun j hj1 hj2 => h j (by omega) (by omega))
    have hbot : ((Finset.Ico i (i + (m + 1 + 1))).sum fun j => min (dialSeconds j) 5)
        = min (dialSeconds i) 5
          + ((Finset.Ico (i + 1) (i + 1 + (m + 1))).sum fun j => min (dialSeconds j) 5) := by
      rw [Finset.sum_eq_sum_Ico_succ_bot (by omega)]
      have hb : i + (m + 1 + 1) = i + 1 + (m + 1) := by omega
      rw [hb]
    unfold connectLoop
    simp only [h0, Bool.false_eq_true, if_false, Nat.succ_ne_zero, hrest, hbot,
      dialTimeoutSeconds, retryDelaySeconds, ConnectResult.mk.injEq]
    refine ⟨trivial, trivial, ?_⟩
    omega

/-- C9 counterexample: with every dial attempt failing, the loop's
startup blocking is not bounded by 40 seconds: sleeping alone accounts
for 38 seconds (19 delays of 2 s, not 20), and with each dial attempt
exhausting its 5-second timeout the loop blocks 138 seconds. -/
theorem C9_initProvider_blocking_counterexample :
    (initProviderConnect (fun _ => false) (fun _ => 5)).blockedSeconds = 138 ∧
    (initProviderConnect (fun _ => false) (fun _ => 0)).blockedSeconds = 38 ∧
    ¬ (initProviderConnect (fun _ => false) (fun _ => 5)).blockedSeconds ≤ 40 := by
  refine ⟨by decide, by decide, by decide⟩

/-- C9 amended: the loop makes at most 20 attempts, blocks at most 138
seconds (each attempt at most 5 s of dial time, with a fixed 2-second
sleep after each failed attempt except the last), returns an error only
when all 20 attempts fail — in which case the blocking is exactly the
sum of the capped dial times plus 38 seconds (19 sleeps of 2 s) — and
reports success exactly when some attempt among the 20 succeeds. -/
theorem C9_initProvider_retry_loop (dialOK : Nat → Bool) (dialSeconds : Nat → Nat) :
    (initProviderConnect dialOK dialSeconds).attempts ≤ 20 ∧
    (initProviderConnect dialOK dialSeconds).blockedSeconds ≤ 138 ∧
    ((initProviderConnect dialOK dialSeconds).success = false →
      (initProviderConnect dialOK dialSeconds).attempts = 20 ∧
      (∀ i, i < 20 → dialOK i = false) ∧
      (initProviderConnect dialOK dialSeconds).blockedSeconds
        = ((Finset.range 20).sum fun j => min (dialSeconds j) 5) + 38) ∧
    ((initProviderConnect dialOK dialSeconds).success = true →
      ∃ i, i < 20 ∧ dialOK i = true) := by
  refine ⟨?_, ?_, ?_, ?_⟩
  · simpa [initProviderConnect, maxRetries] using
      connectLoop_attempts_le dialOK dialSeconds 20 0
  · have := connectLoop_blocked_le dialOK dialSeconds 20 0
    simpa [initProviderConnect, maxRetries] using this
  · intro hs
    have hall : ∀ j, 0 ≤ j → j < 0 + 20 → dialOK j = false :=
      connectLoop_success_false dialOK dialSeconds 20 0 hs
    refine ⟨connectLoop_attempts_of_failure dialOK dialSeconds 20 0 hs,
      fun i hi => hall i (by omega) (by omega), ?_⟩
    have hrun := connectLoop_all_fail dialOK dialSeconds 19 0
      (fun j hj1 hj2 => hall j hj1 (by omega))
    have h20 : (19 : Nat) + 1 = 20 := rfl
    rw [h20] at hrun
    rw [initProviderConnect, maxRetries, hrun]
    rw [Finset.range_eq_Ico]
  · intro hs
    obtain ⟨j, hj1, hj2, hj3⟩ := connectLoop_success_true dialOK dialSeconds 20 0 hs
    exact ⟨j, by omega, hj3⟩

end OtelGoExpert
